import Mathlib

/-!
A shallow embedding of the event-stream-engine messaging service
(`src/app`), written to settle the claims C1..C10 about its
specification.  Python functions are translated into executable Lean
definitions; the database session is explicit state, the Redis store
and the Twilio client are explicit parameters, and wall-clock reads
are passed in as arguments.  Machine strings are Lean `String`s and
attribute maps are association lists looked up by first match, which
matches Python dict lookup on the keys the code uses.
-/

namespace EventStream

/-- `app.core.data_model.ConsentState`. -/
inductive ConsentState
  | OPT_IN
  | OPT_OUT
  | STOP
deriving DecidableEq, Repr

/-- `app.core.data_model.MessageStatus`. -/
inductive MessageStatus
  | QUEUED
  | SENDING
  | SENT
  | DELIVERED
  | READ
  | FAILED
  | UNDELIVERED
deriving DecidableEq, Repr

/-- Attribute maps (`User.attributes` JSON objects): association lists,
first binding wins, mirroring dict lookup. -/
abbrev AttrMap := List (String × String)

/-- Dict lookup `attrs.get(k)` / `attrs[k]`. -/
def lookupAttr (attrs : AttrMap) (k : String) : Option String :=
  match attrs with
  | [] => none
  | (k', v) :: rest => if k' = k then some v else lookupAttr rest k

/-- `dict.update`: start from the old map, every key of the new map
overrides, keys absent from the new map keep their old value
(`merged_attributes = existing.copy(); merged_attributes.update(new)`). -/
def mergeAttrs (old new : AttrMap) : AttrMap :=
  old.filter (fun p => (lookupAttr new p.1).isNone) ++ new

/-- `users` row (the migrations settle the phone column name as
`phone_number`; `app/main.py` and `app/runner/tasks.py` address it that
way). -/
structure User where
  phone_number : String
  attributes : AttrMap
  consent_state : ConsentState
deriving DecidableEq, Repr

/-- `templates` row. -/
structure Template where
  id : Nat
  content : String
  channel : String
deriving DecidableEq, Repr

/-- A segment `definition_json` as `resolve_campaign_recipients` reads it:
either a single `{attribute, operator, value}` filter or a flat
`{conditions: [...], logic}` composite (the code never recurses). -/
inductive SegmentDef
  | leaf (attribute_name operator value : String)
  | composite (logic : String) (conditions : List (String × String × String))
deriving DecidableEq, Repr

/-- `campaigns` row (status is a plain string column). -/
structure Campaign where
  id : Nat
  template_id : Nat
  segment : Option SegmentDef
  status : String
  rate_limit_per_second : Nat
  quiet_hours_start : Option String
  quiet_hours_end : Option String
  schedule_time : Option Nat
deriving DecidableEq, Repr

/-- `messages` row as `run_campaign_task` materializes and mutates it. -/
structure Message where
  phone_number : String
  campaign_id : Nat
  template_id : Nat
  rendered_content : String
  status : MessageStatus
  channel : String
  provider_sid : Option String
  error_code : Option Int
  sent_at : Option Nat
  delivered_at : Option Nat
deriving DecidableEq, Repr

/-- `events_inbound` row (normalized fields only; the raw payload is
carried verbatim as the original form fields). -/
structure InboundEvent where
  message_sid : Option String
  from_phone : String
  channel_type : Option String
  normalized_body : Option String
deriving DecidableEq, Repr

/-- `delivery_receipts` row. -/
structure DeliveryReceipt where
  message_sid : Option String
  message_status : Option String
  error_code : Option Int
deriving DecidableEq, Repr

/-- The transactional store: one list per table that the claims touch. -/
structure DBState where
  users : List User
  campaigns : List Campaign
  templates : List Template
  messages : List Message
  inbound_events : List InboundEvent
  delivery_receipts : List DeliveryReceipt
deriving DecidableEq, Repr

/-- `User.query.get(phone)`. -/
def findUser (db : DBState) (phone : String) : Option User :=
  db.users.find? (fun u => u.phone_number = phone)

/-- `Campaign.query.get(id)`. -/
def findCampaign (db : DBState) (cid : Nat) : Option Campaign :=
  db.campaigns.find? (fun c => c.id = cid)

/-- `Template.query.get(id)`. -/
def findTemplate (db : DBState) (tid : Nat) : Option Template :=
  db.templates.find? (fun t => t.id = tid)

/-- `Message.query.filter_by(provider_sid=sid).first()`. -/
def findMessageBySid (db : DBState) (sid : Option String) : Option Message :=
  db.messages.find? (fun m => m.provider_sid = sid)

/-! ## Rate limiter (`app/core/rate_limiter.py`)

The Redis key `campaign:{id}:rate_limit:{second}` holds a counter with
a TTL.  The state of that one key is `Option (Nat × Nat)`: `none` when
the key is absent, otherwise `(count, ttl)`.  Store reachability is an
explicit flag: `storeOk = false` lands in the `except Exception`
branch of `check_and_increment`. -/

/-- The `(allowed, current_count, remaining_capacity)` triple
`RateLimiter.check_and_increment` returns. -/
structure RateResult where
  allowed : Bool
  current_count : Nat
  remaining : Nat
deriving DecidableEq, Repr

/-- `RateLimiter.check_and_increment(campaign_id, rate_limit)` acting on
the key for the current `(campaign_id, second)`: read the count
(0 if the key is absent); if it is already `>= rate_limit`, deny
without writing; otherwise `INCR` + `EXPIRE 2` and allow.  Any store
failure is caught and the call fails open with `(True, 0, rate_limit)`. -/
def check_and_increment (rate_limit : Nat) (storeOk : Bool)
    (key : Option (Nat × Nat)) : RateResult × Option (Nat × Nat) :=
  if storeOk then
    let current := match key with
      | none => 0
      | some (c, _) => c
    if rate_limit ≤ current then
      (⟨false, current, 0⟩, key)
    else
      let n := current + 1
      (⟨true, n, rate_limit - n⟩, some (n, 2))
  else
    (⟨true, 0, rate_limit⟩, key)

/-- The limiter the spec describes (`try_admit`): *every* call
atomically increments the counter (TTL 2) and admits iff the
post-increment count is `≤ limit`.  Written from the spec's words, for
comparison with `check_and_increment`. -/
def try_admit_spec (rate_limit : Nat) (key : Option (Nat × Nat)) :
    RateResult × Option (Nat × Nat) :=
  let current := match key with
    | none => 0
    | some (c, _) => c
  let n := current + 1
  (⟨decide (n ≤ rate_limit), n, rate_limit - n⟩, some (n, 2))

/-! ## Quiet hours (`app/runner/tasks.py::is_in_quiet_hours`)

`quiet_hours_start`/`quiet_hours_end` are `"HH:MM"` strings parsed via
`strptime "%H:%M"`; the current wall-clock reading is
`datetime.now().time()` (the host-local clock — the code's own comment
says local "instead of UTC").  Both the parsed bounds (second = 0) and
the clock are modelled as seconds of the day.  The `user` argument is
taken but never read by the function body. -/

/-- Split a character list at every occurrence of `sep`. -/
def splitChar (sep : Char) : List Char → List (List Char)
  | [] => [[]]
  | c :: cs =>
    let r := splitChar sep cs
    if c = sep then [] :: r
    else
      match r with
      | [] => [[c]]
      | x :: xs => (c :: x) :: xs

/-- Digits-only check for one `strptime` field. -/
def allDigits (cs : List Char) : Bool :=
  cs.all Char.isDigit && !cs.isEmpty

/-- Decimal value of a digit run. -/
def digitsToNat (cs : List Char) : Nat :=
  cs.foldl (fun a c => a * 10 + (c.toNat - 48)) 0

/-- `datetime.strptime(s, "%H:%M").time()` as seconds of the day:
one or two digit hour `≤ 23`, one or two digit minute `≤ 59`, joined by
`:` (that is what `%H:%M` accepts).  `none` is the `ValueError` branch. -/
def parseHHMM (s : String) : Option Nat :=
  match splitChar ':' s.data with
  | [h, m] =>
    if allDigits h && allDigits m && h.length ≤ 2 && m.length ≤ 2 then
      let hv := digitsToNat h
      let mv := digitsToNat m
      if hv ≤ 23 ∧ mv ≤ 59 then some (hv * 3600 + mv * 60) else none
    else none
  | _ => none

/-- `is_in_quiet_hours(campaign, user)` with the wall-clock reading
`now` (seconds of the host-local day) made explicit.  Returns `False`
when either bound is unset or unparsable; otherwise compares with the
midnight-wrap rule `current >= start or current <= end` when
`start > end`, and the inclusive interval `start <= current <= end`
otherwise.  `userAttrs` is the `user` parameter's attribute map: the
body never consults it. -/
def is_in_quiet_hours (qs qe : Option String) (now : Nat)
    (userAttrs : AttrMap) : Bool :=
  match qs, qe with
  | some s, some e =>
    match parseHHMM s, parseHHMM e with
    | some start_time, some end_time =>
      if end_time < start_time then
        decide (start_time ≤ now) || decide (now ≤ end_time)
      else
        decide (start_time ≤ now) && decide (now ≤ end_time)
    | _, _ => false
  | _, _ => false

/-- The quiet-hours window of the claim: the half-open `[s, e)`, with
the wrap rule `t ≥ s ∨ t ≤ e` when `s > e`.  Written from the spec's
words, for comparison with `is_in_quiet_hours`. -/
def quiet_window_spec (start_time end_time now : Nat) : Bool :=
  if end_time < start_time then
    decide (start_time ≤ now) || decide (now ≤ end_time)
  else
    decide (start_time ≤ now) && decide (now < end_time)

end EventStream

namespace EventStream

/-! ## Claim C4: rate limiter -/

/-- C4 counterexample: with `limit = 1` and the current second's
counter already at 1, the denied call leaves the counter at 1 — the
claimed unconditional increment (which would leave 2, as
`try_admit_spec` does) does not happen; moreover the post-call count
1 ≤ 1 although the call did not admit, so "admits exactly when the
post-increment count ≤ limit" also fails on this input. -/
theorem C4_counterexample :
    (check_and_increment 1 true (some (1, 2))).2 = some (1, 2) ∧
    (try_admit_spec 1 (some (1, 2))).2 = some (2, 2) ∧
    (check_and_increment 1 true (some (1, 2))).1.allowed = false ∧
    (match (check_and_increment 1 true (some (1, 2))).2 with
      | none => 0
      | some (c, _) => c) ≤ 1 := by
  decide

/-- The counter stored under a rate-limiter key, 0 when absent
(`int(current_count) if current_count else 0`). -/
def keyCount (key : Option (Nat × Nat)) : Nat :=
  match key with
  | none => 0
  | some (c, _) => c

/-- C4 amended: `check_and_increment(campaign_id, limit)` admits
exactly when the pre-increment count is `< limit`; the counter (with a
2-second TTL) is incremented only on admission, a denied call leaves
the store untouched; when the store operation fails the call fails
open, admitting with `(0, limit)` and leaving the store untouched. -/
theorem C4_rate_limiter_amended (rate_limit : Nat) (key : Option (Nat × Nat)) :
    ((check_and_increment rate_limit true key).1.allowed = true ↔
        keyCount key < rate_limit) ∧
    (keyCount key < rate_limit →
        (check_and_increment rate_limit true key).2 = some (keyCount key + 1, 2) ∧
        (check_and_increment rate_limit true key).1.current_count = keyCount key + 1 ∧
        keyCount key + 1 ≤ rate_limit) ∧
    (rate_limit ≤ keyCount key →
        (check_and_increment rate_limit true key).2 = key) ∧
    (check_and_increment rate_limit false key).1.allowed = true ∧
    (check_and_increment rate_limit false key).1.current_count = 0 ∧
    (check_and_increment rate_limit false key).1.remaining = rate_limit ∧
    (check_and_increment rate_limit false key).2 = key := by
  have htrue : check_and_increment rate_limit true key =
      if rate_limit ≤ keyCount key then (⟨false, keyCount key, 0⟩, key)
      else (⟨true, keyCount key + 1, rate_limit - (keyCount key + 1)⟩,
        some (keyCount key + 1, 2)) := by
    cases key <;> rfl
  have hfail : check_and_increment rate_limit false key = (⟨true, 0, rate_limit⟩, key) := by
    cases key <;> rfl
  refine ⟨?_, ?_, ?_, ?_, ?_, ?_, ?_⟩
  · by_cases h : rate_limit ≤ keyCount key <;> simp [htrue, h] <;> omega
  · intro h
    have hnot : ¬ rate_limit ≤ keyCount key := by omega
    simp [htrue, hnot]
    omega
  · intro h
    simp [htrue, h]
  · simp [hfail]
  · simp [hfail]
  · simp [hfail]
  · simp [hfail]

/-- C4 amended, instantiated: limit 2, key absent — the call admits,
writes counter 1 with TTL 2, and a dead store fails open. -/
theorem C4_rate_limiter_amended_witness :
    ((check_and_increment 2 true none).1.allowed = true ↔ keyCount none < 2) ∧
    (check_and_increment 2 true none).2 = some (keyCount none + 1, 2) ∧
    (check_and_increment 2 false none).1.allowed = true := by
  have h := C4_rate_limiter_amended 2 none
  refine ⟨h.1, ?_, h.2.2.2.1⟩
  exact (h.2.1 (by decide)).1

/-! ## Claim C6: quiet hours -/

/-- C6 counterexample: take the non-wrapping window `09:00`–`17:00`
and the instant `17:00:00` sharp (second 61200 of the day).  The
claim's half-open `[start, end)` excludes it, yet `is_in_quiet_hours`
(inclusive upper bound) reports the recipient inside quiet hours; the
user's attribute map even carries a `timezone` key, which the function
never reads. -/
theorem C6_counterexample :
    is_in_quiet_hours (some "09:00") (some "17:00") 61200
        [("timezone", "America/New_York")] = true ∧
    parseHHMM "09:00" = some 32400 ∧ parseHHMM "17:00" = some 61200 ∧
    quiet_window_spec 32400 61200 61200 = false := by
  refine ⟨?_, ?_, ?_, ?_⟩ <;> decide

/-- C6 amended: for parsable bounds the gate tests the *inclusive*
interval `start ≤ t ≤ end` (wrapping as `t ≥ start ∨ t ≤ end` when
`start > end`), against a single process-wide clock reading — host-local
wall clock in `app/runner/tasks.py`, not per-user: the result is
identical for any two user attribute maps, so a `timezone` attribute is
never consulted. -/
theorem C6_quiet_hours_amended (s e : String) (ss ee now : Nat)
    (attrs attrs' : AttrMap)
    (hs : parseHHMM s = some ss) (he : parseHHMM e = some ee) :
    is_in_quiet_hours (some s) (some e) now attrs =
      (if ee < ss then decide (ss ≤ now) || decide (now ≤ ee)
       else decide (ss ≤ now) && decide (now ≤ ee)) ∧
    is_in_quiet_hours (some s) (some e) now attrs =
      is_in_quiet_hours (some s) (some e) now attrs' := by
  constructor
  · simp only [is_in_quiet_hours, hs, he]
  · simp only [is_in_quiet_hours, hs, he]

/-- C6 amended, instantiated at the wrapping window `22:00`–`06:00`
and `23:30`: the recipient is inside the window whichever attribute
map the user carries. -/
theorem C6_quiet_hours_amended_witness :
    is_in_quiet_hours (some "22:00") (some "06:00") 84600 [] =
      (if 21600 < 79200 then decide (79200 ≤ 84600) || decide (84600 ≤ 21600)
       else decide (79200 ≤ 84600) && decide (84600 ≤ 21600)) ∧
    is_in_quiet_hours (some "22:00") (some "06:00") 84600 [] =
      is_in_quiet_hours (some "22:00") (some "06:00") 84600 [("timezone", "UTC")] :=
  C6_quiet_hours_amended "22:00" "06:00" 79200 21600 84600 []
    [("timezone", "UTC")] (by decide) (by decide)

/-! ## Bulk import upsert (`app/runner/tasks.py::_upsert_user`) -/

/-- The processed record `_process_user_record` hands to `_upsert_user`
(its dict keys are `phone_e164`, `consent_state`, `attributes`). -/
structure UserData where
  phone_e164 : String
  consent_state : ConsentState
  attributes : AttrMap
deriving DecidableEq, Repr

/-- `_upsert_user(user_data)`: when a user with the phone exists, merge
attributes (incoming keys override) and assign the incoming
`consent_state`; otherwise insert a fresh user.  Returns the session
after commit together with the reported action string. -/
def upsert_user (ud : UserData) (db : DBState) : DBState × String :=
  match findUser db ud.phone_e164 with
  | some _ =>
    ({db with users := db.users.map fun u =>
        if u.phone_number = ud.phone_e164 then
          { u with attributes := mergeAttrs u.attributes ud.attributes,
                   consent_state := ud.consent_state }
        else u}, "merged")
  | none =>
    ({db with users := db.users ++
        [⟨ud.phone_e164, ud.attributes, ud.consent_state⟩]}, "created")

/-- Lookup distributes over append. -/
theorem lookupAttr_append (a b : AttrMap) (k : String) :
    lookupAttr (a ++ b) k =
      (lookupAttr a k).orElse (fun _ => lookupAttr b k) := by
  induction a with
  | nil => simp [lookupAttr]
  | cons p rest ih =>
    obtain ⟨k', v⟩ := p
    by_cases h : k' = k <;> simp [lookupAttr, h, ih]

/-- Filtering away only pairs with other keys leaves the lookup alone. -/
theorem lookupAttr_filter_keep (q : String × String → Bool) (a : AttrMap)
    (k : String) (hq : ∀ v, q (k, v) = true) :
    lookupAttr (a.filter q) k = lookupAttr a k := by
  induction a with
  | nil => simp [lookupAttr]
  | cons p rest ih =>
    obtain ⟨k', v⟩ := p
    by_cases h : k' = k
    · subst h
      simp [List.filter, hq v, lookupAttr]
    · by_cases hqp : q (k', v) <;> simp [List.filter, hqp, lookupAttr, h, ih]

/-- Filtering away every pair with key `k` empties the lookup. -/
theorem lookupAttr_filter_drop (q : String × String → Bool) (a : AttrMap)
    (k : String) (hq : ∀ v, q (k, v) = false) :
    lookupAttr (a.filter q) k = none := by
  induction a with
  | nil => simp [lookupAttr]
  | cons p rest ih =>
    obtain ⟨k', v⟩ := p
    by_cases h : k' = k
    · subst h
      simp [List.filter, hq v, ih]
    · by_cases hqp : q (k', v) <;> simp [List.filter, hqp, lookupAttr, h, ih]

/-- `dict.update` semantics of `mergeAttrs`: a key present in the new
map takes the new value, every other key keeps its old value. -/
theorem lookupAttr_merge (old new : AttrMap) (k : String) :
    lookupAttr (mergeAttrs old new) k =
      match lookupAttr new k with
      | some v => some v
      | none => lookupAttr old k := by
  unfold mergeAttrs
  rw [lookupAttr_append]
  cases hn : lookupAttr new k with
  | some v =>
    rw [lookupAttr_filter_drop _ _ k (fun w => by simp [hn])]
    simp [Option.orElse, hn]
  | none =>
    rw [lookupAttr_filter_keep _ _ k (fun w => by simp [hn])]
    cases lookupAttr old k <;> simp [Option.orElse, hn]

/-- `find?` after an in-place update of the found row. -/
theorem find_updated (us : List User) (p : String) (g : User → User)
    (hg : ∀ x, (g x).phone_number = x.phone_number) (u : User)
    (h : us.find? (fun x => x.phone_number = p) = some u) :
    (us.map (fun x => if x.phone_number = p then g x else x)).find?
        (fun x => x.phone_number = p) = some (g u) := by
  induction us with
  | nil => simp at h
  | cons x xs ih =>
    by_cases hx : x.phone_number = p
    · have hu : u = x := by
        simp [List.find?, hx] at h
        exact h.symm
      subst hu
      simp [List.find?, hx, hg]
    · have hx' : (decide (x.phone_number = p)) = false := by simp [hx]
      simp only [List.map, List.find?, if_neg hx, hx'] at h ⊢
      exact ih h

/-! ## Claim C5: bulk-import upsert -/

/-- C5 counterexample: a user who has texted STOP is re-imported with
`consent_state = OPT_IN`; after `_upsert_user` the stored consent is
OPT_IN — the STOP state is *not* preserved by bulk import. -/
theorem C5_counterexample :
    (findUser
      (upsert_user ⟨"+14155550001", ConsentState.OPT_IN, [("city", "Austin")]⟩
        ⟨[⟨"+14155550001", [("name", "Ana")], ConsentState.STOP⟩],
          [], [], [], [], []⟩).1
      "+14155550001").map User.consent_state = some ConsentState.OPT_IN ∧
    ConsentState.OPT_IN ≠ ConsentState.STOP := by
  constructor
  · rfl
  · decide

/-- C5 amended: for an existing user, `_upsert_user` reports `merged`,
merges the attribute maps with the incoming keys overriding and every
other key unchanged — and *unconditionally overwrites* `consent_state`
with the imported value, even when the stored state is STOP. -/
theorem C5_upsert_amended (ud : UserData) (db : DBState) (u : User)
    (h : findUser db ud.phone_e164 = some u) :
    (upsert_user ud db).2 = "merged" ∧
    findUser (upsert_user ud db).1 ud.phone_e164 =
      some { u with attributes := mergeAttrs u.attributes ud.attributes,
                    consent_state := ud.consent_state } ∧
    (∀ k, lookupAttr (mergeAttrs u.attributes ud.attributes) k =
      match lookupAttr ud.attributes k with
      | some v => some v
      | none => lookupAttr u.attributes k) := by
  refine ⟨?_, ?_, fun k => lookupAttr_merge u.attributes ud.attributes k⟩
  · simp [upsert_user, h]
  · show findUser
      (match findUser db ud.phone_e164 with
        | some _ => _
        | none => _ : DBState × String).1 ud.phone_e164 = _
    rw [h]
    exact find_updated db.users ud.phone_e164
      (fun u => { u with attributes := mergeAttrs u.attributes ud.attributes,
                         consent_state := ud.consent_state })
      (fun _ => rfl) u h

/-- C5 amended, instantiated: importing `{"tier": "gold"}` with
OPT_OUT onto a STOP user with `{"name": "Ana", "tier": "basic"}`:
action is `merged`, `tier` is overridden, `name` survives, consent is
overwritten. -/
theorem C5_upsert_amended_witness :
    (upsert_user ⟨"+14155550001", ConsentState.OPT_OUT, [("tier", "gold")]⟩
      ⟨[⟨"+14155550001", [("name", "Ana"), ("tier", "basic")],
        ConsentState.STOP⟩], [], [], [], [], []⟩).2 = "merged" ∧
    lookupAttr (mergeAttrs [("name", "Ana"), ("tier", "basic")]
        [("tier", "gold")]) "tier" = some "gold" ∧
    lookupAttr (mergeAttrs [("name", "Ana"), ("tier", "basic")]
        [("tier", "gold")]) "name" = some "Ana" := by
  have h := C5_upsert_amended
    ⟨"+14155550001", ConsentState.OPT_OUT, [("tier", "gold")]⟩
    ⟨[⟨"+14155550001", [("name", "Ana"), ("tier", "basic")],
      ConsentState.STOP⟩], [], [], [], [], []⟩
    ⟨"+14155550001", [("name", "Ana"), ("tier", "basic")], ConsentState.STOP⟩
    (by rfl)
  refine ⟨h.1, ?_, ?_⟩
  · rw [h.2.2 "tier"]
    rfl
  · rw [h.2.2 "name"]
    rfl

/-! ## Template renderer (`app/runner/tasks.py::render_message_template`)

The code first collects `re.findall(r"\{(\w+)\}", content)` and raises
`"Missing required template data"` when any collected name is absent
from the attribute dict or has a falsy (empty) value; only then does it
call Python's `str.format(**attrs)`, wrapping a `KeyError` into
`"Template rendering failed: missing attribute"` and any other
exception into `"Template rendering error"`.

`scanPlaceholders` is the regex scan (leftmost, non-overlapping, `\w`
restricted to the ASCII fragment the claims exercise).  `pythonFormat`
models `str.format` on the fragment the template language uses:
doubled braces are literal braces, `{word}` is a keyword lookup, and
every other use of a brace (a stray brace, an empty field, conversion
or format-spec syntax) is collapsed into the single `badBrace` error —
in the source all those exceptions end in the same generic
`ValueError` wrap, so the collapse does not affect any claim. -/

/-- `\w` on the ASCII fragment: letters, digits, underscore. -/
def isWordChar (c : Char) : Bool :=
  c.isAlphanum || c = '_'

/-- Longest leading run of word characters, with the rest. -/
def takeWordRun : List Char → List Char × List Char
  | [] => ([], [])
  | c :: cs =>
    if isWordChar c then
      (c :: (takeWordRun cs).1, (takeWordRun cs).2)
    else ([], c :: cs)

/-- The remainder of `takeWordRun` is no longer than the input. -/
theorem takeWordRun_len (cs : List Char) :
    (takeWordRun cs).2.length ≤ cs.length := by
  induction cs with
  | nil => simp [takeWordRun]
  | cons c cs ih =>
    by_cases h : isWordChar c <;> simp [takeWordRun, h] <;> omega

/-- Structural worker for the regex scan.  Every step consumes at
least one character, so any `fuel > length` never reaches the `0`
branch; `scanPlaceholders` always supplies such a fuel. -/
def scanAux : Nat → List Char → List String
  | 0, _ => []
  | _ + 1, [] => []
  | fuel + 1, c :: rest =>
    if c = '{' then
      match takeWordRun rest with
      | ([], _) => scanAux fuel rest
      | (_ :: _, []) => scanAux fuel rest
      | (w₀ :: w, d :: r') =>
        if d = '}' then String.mk (w₀ :: w) :: scanAux fuel r'
        else scanAux fuel rest
    else scanAux fuel rest

/-- `re.findall(r"\{(\w+)\}", ·)`: leftmost non-overlapping matches of
an opening brace, a nonempty word run, a closing brace. -/
def scanPlaceholders (cs : List Char) : List String :=
  scanAux (cs.length + 1) cs

/-- Errors `str.format` can raise on this fragment. -/
inductive FmtError
  | badBrace
  | missingKey (k : String)
deriving DecidableEq, Repr

/-- Structural worker for the format fragment; the `0` branch is
unreachable for any `fuel > length`, which `pythonFormat` supplies. -/
def pythonFormatAux (attrs : String → Option String) :
    Nat → List Char → Except FmtError (List Char)
  | 0, _ => .ok []
  | _ + 1, [] => .ok []
  | fuel + 1, '{' :: '{' :: rest =>
    (pythonFormatAux attrs fuel rest).map (fun r => '{' :: r)
  | fuel + 1, '}' :: '}' :: rest =>
    (pythonFormatAux attrs fuel rest).map (fun r => '}' :: r)
  | fuel + 1, '{' :: rest =>
    match takeWordRun rest with
    | ([], _) => .error .badBrace
    | (_ :: _, []) => .error .badBrace
    | (w₀ :: w, d :: r') =>
      if d = '}' then
        match attrs (String.mk (w₀ :: w)) with
        | none => .error (.missingKey (String.mk (w₀ :: w)))
        | some v => (pythonFormatAux attrs fuel r').map (fun r => v.data ++ r)
      else .error .badBrace
  | _ + 1, '}' :: _ => .error .badBrace
  | fuel + 1, c :: rest => (pythonFormatAux attrs fuel rest).map (fun r => c :: r)

/-- `str.format(**attrs)` on the identifier-field fragment: `{{`/`}}`
produce one literal brace, `{word}` substitutes the keyword argument
(`KeyError` when absent), anything else involving a brace errors. -/
def pythonFormat (attrs : String → Option String) (cs : List Char) :
    Except FmtError (List Char) :=
  pythonFormatAux attrs (cs.length + 1) cs

/-- The three `ValueError` flavours of `render_message_template`. -/
inductive RenderError
  | missingData (names : List String)
  | missingAttribute (k : String)
  | renderFailure
deriving DecidableEq, Repr

/-- Truthiness test of the pre-check: a placeholder is missing when it
is absent from the dict or its value is falsy (empty string). -/
def missingPlaceholders (content : String) (user_attributes : AttrMap) :
    List String :=
  (scanPlaceholders content.data).filter (fun p =>
    match lookupAttr user_attributes p with
    | none => true
    | some v => v = "")

/-- `render_message_template(template_content, user_attributes)`. -/
def render_message_template (template_content : String)
    (user_attributes : AttrMap) : Except RenderError String :=
  let missing := missingPlaceholders template_content user_attributes
  if missing.isEmpty then
    match pythonFormat (lookupAttr user_attributes) template_content.data with
    | .ok r => .ok (String.mk r)
    | .error (.missingKey k) => .error (.missingAttribute k)
    | .error .badBrace => .error .renderFailure
  else .error (.missingData missing)

/-! ## Claim C7: template rendering -/

/-- C7 counterexample: the content `"{{"` contains no placeholder, so
rendering succeeds — but `str.format` collapses the doubled brace and
yields `"{"`, not the verbatim `"{{"` the claim requires for text
outside the placeholder grammar. -/
theorem C7_counterexample :
    scanPlaceholders "\x7b\x7b".data = [] ∧
    render_message_template "\x7b\x7b" [] = .ok "\x7b" ∧
    "\x7b" ≠ "\x7b\x7b" := by
  refine ⟨by decide, ?_, by decide⟩
  rfl

/-- C7 amended: the renderer raises the missing-data error — listing
exactly the `{word}` placeholders (regex `\{(\w+)\}`) that are absent
from the attribute map or bound to an empty value — if and only if
that list is nonempty; when it succeeds the result is Python
`str.format` applied to the content, which substitutes `attrs[name]`
for each `{name}` and collapses `{{`/`}}` to literal braces rather
than passing every non-placeholder character through verbatim. -/
theorem C7_render_amended (content : String) (attrs : AttrMap) :
    (render_message_template content attrs =
        .error (.missingData (missingPlaceholders content attrs)) ↔
      missingPlaceholders content attrs ≠ []) ∧
    (∀ r, render_message_template content attrs = .ok r →
      pythonFormat (lookupAttr attrs) content.data = .ok r.data) := by
  constructor
  · constructor
    · intro h hempty
      rw [render_message_template] at h
      simp only [hempty, List.isEmpty_nil, if_true] at h
      cases hf : pythonFormat (lookupAttr attrs) content.data with
      | ok r => rw [hf] at h; exact Except.noConfusion h
      | error e =>
        cases e with
        | badBrace => rw [hf] at h; simp at h
        | missingKey k => rw [hf] at h; simp at h
    · intro h
      rw [render_message_template]
      have : (missingPlaceholders content attrs).isEmpty = false := by
        cases hm : missingPlaceholders content attrs with
        | nil => exact absurd hm h
        | cons a l => simp
      simp only [this, Bool.false_eq_true, if_false]
  · intro r h
    rw [render_message_template] at h
    by_cases hempty : (missingPlaceholders content attrs).isEmpty
    · simp only [hempty, if_true] at h
      cases hf : pythonFormat (lookupAttr attrs) content.data with
      | ok l =>
        rw [hf] at h
        simp only [Except.ok.injEq] at h
        subst h
        rfl
      | error e =>
        rw [hf] at h
        cases e <;> simp at h
    · simp only [hempty, if_false] at h
      simp at h

/-- C7 amended, instantiated: `"Hi {name}"` with `name = Ana` renders
through `str.format`; with an empty attribute map the missing-data
error lists `name`. -/
theorem C7_render_amended_witness :
    pythonFormat (lookupAttr [("name", "Ana")]) "Hi {name}".data =
      .ok "Hi Ana".data ∧
    render_message_template "Hi {name}" [] =
      .error (.missingData (missingPlaceholders "Hi {name}" [])) := by
  constructor
  · exact (C7_render_amended "Hi {name}" [("name", "Ana")]).2 "Hi Ana" (by rfl)
  · exact ((C7_render_amended "Hi {name}" []).1).mpr (by decide)

/-! ## Phone normalization (`app/core/data_model.py::extract_channel_and_phone`) -/

/-- Python `str.lower()` on the ASCII fragment. -/
def pyLower (s : String) : String :=
  String.mk (s.data.map Char.toLower)

/-- Leading/trailing-whitespace trim (`str.strip()`). -/
def trimChars (cs : List Char) : List Char :=
  ((cs.dropWhile Char.isWhitespace).reverse.dropWhile Char.isWhitespace).reverse

/-- `raw.lower().strip()` — the body normalization of the webhook. -/
def pyLowerStrip (s : String) : String :=
  String.mk (trimChars (s.data.map Char.toLower))

/-- Remainder after a literal prefix, when the prefix matches. -/
def stripPrefixChars : List Char → List Char → Option (List Char)
  | [], cs => some cs
  | _, [] => none
  | p :: ps, c :: cs => if p = c then stripPrefixChars ps cs else none

/-- `re.match(r"^\+[1-9]\d{1,14}$", ·)`. -/
def isE164Plus (cs : List Char) : Bool :=
  match cs with
  | '+' :: d :: rest =>
    d.isDigit && d ≠ '0' && rest.all Char.isDigit &&
      decide (1 ≤ rest.length) && decide (rest.length ≤ 14)
  | _ => false

/-- `re.match(r"^[1-9]\d{1,14}$", ·)`. -/
def isE164Bare (cs : List Char) : Bool :=
  match cs with
  | d :: rest =>
    d.isDigit && d ≠ '0' && rest.all Char.isDigit &&
      decide (1 ≤ rest.length) && decide (rest.length ≤ 14)
  | [] => false

/-- `extract_channel_and_phone(phone_input)`: strip a channel prefix
(defaulting the channel to `sms`), strip whitespace, accept an E.164
string as-is, prepend `+` to a bare variant, and return `None` for the
phone otherwise. -/
def extract_channel_and_phone (phone_input : String) :
    Option String × Option String :=
  if phone_input.data.isEmpty then (none, none)
  else
    let cs := phone_input.data
    let (channel_type, rest) :=
      match stripPrefixChars "whatsapp:".data cs with
      | some r => ("whatsapp", r)
      | none =>
        match stripPrefixChars "sms:".data cs with
        | some r => ("sms", r)
        | none =>
          match stripPrefixChars "messenger:".data cs with
          | some r => ("messenger", r)
          | none =>
            match stripPrefixChars "voice:".data cs with
            | some r => ("voice", r)
            | none => ("sms", cs)
    let phone := trimChars rest
    if isE164Plus phone then (some channel_type, some (String.mk phone))
    else if isE164Bare phone then
      (some channel_type, some (String.mk ('+' :: phone)))
    else (some channel_type, none)

/-! ## Inbound webhook (`app/main.py::inbound_webhook`) -/

/-- The form fields the handler reads. -/
structure InboundForm where
  MessageSid : Option String
  From : Option String
  Body : Option String
deriving DecidableEq, Repr

/-- An HTTP response: status code and body. -/
structure WebhookResponse where
  status_code : Nat
  body : String
deriving DecidableEq, Repr

/-- The handler's STOP keyword list (note: no `opt-out`). -/
def stop_words : List String :=
  ["stop", "stopall", "unsubscribe", "cancel", "end", "quit"]

/-- `find?`-after-update: rewriting the rows matched by `P` with a
`P`-preserving `g` rewrites the found row. -/
theorem find?_update {α : Type} (xs : List α) (P : α → Prop) [DecidablePred P]
    (g : α → α) (hg : ∀ x, P x → P (g x)) (u : α)
    (h : xs.find? (fun x => P x) = some u) :
    (xs.map (fun x => if P x then g x else x)).find? (fun x => P x) =
      some (g u) := by
  induction xs with
  | nil => simp at h
  | cons x xs ih =>
    by_cases hx : P x
    · have hu : u = x := by
        simp [List.find?, hx] at h
        exact h.symm
      subst hu
      simp [List.find?, List.map, hx, hg u hx]
    · have hdx : decide (P x) = false := by simp [hx]
      simp only [List.find?, hdx] at h
      simp only [List.map, List.find?, if_neg hx, hdx]
      exact ih h

/-- A row found in neither prefix is found in the suffix. -/
theorem find?_append_none {α : Type} (l₁ l₂ : List α) (q : α → Bool)
    (h : l₁.find? q = none) : (l₁ ++ l₂).find? q = l₂.find? q := by
  induction l₁ with
  | nil => simp
  | cons x xs ih =>
    cases hx : q x with
    | true => simp [List.find?, hx] at h
    | false =>
      simp only [List.find?, hx] at h
      simp only [List.cons_append, List.find?, hx]
      exact ih h

/-- `inbound_webhook`: normalize `From`; on failure acknowledge with an
empty TwiML and persist nothing; otherwise stage the `InboundEvent`,
set the user's consent to STOP (creating the user if absent) when the
lower-cased stripped body is one of the six stop words, commit, and
acknowledge. -/
def inbound_webhook (raw : InboundForm) (db : DBState) :
    DBState × WebhookResponse :=
  let raw_phone := raw.From.getD ""
  let (channel_type, normalized_phone) := extract_channel_and_phone raw_phone
  match normalized_phone with
  | none => (db, ⟨200, ""⟩)
  | some phone =>
    let event : InboundEvent :=
      ⟨raw.MessageSid, phone, channel_type,
        match raw.Body with
        | none => none
        | some b => if b = "" then none else some (pyLowerStrip b)⟩
    let message_body := pyLowerStrip (raw.Body.getD "")
    let db :=
      if stop_words.contains message_body then
        match findUser db phone with
        | some _ =>
          {db with users := db.users.map fun u =>
            if u.phone_number = phone then
              { u with consent_state := ConsentState.STOP }
            else u}
        | none =>
          {db with users := db.users ++ [⟨phone, [], ConsentState.STOP⟩]}
      else db
    ({db with inbound_events := db.inbound_events ++ [event]},
      ⟨200, "Message received"⟩)

/-! ## Claim C2: STOP intents -/

/-- C2 counterexample: the body `opt-out` (already lower-case and
trimmed, and listed as a STOP intent by the claim) from a known opted-in
user leaves the user's consent at OPT_IN: the handler's keyword list
has no `opt-out`. -/
theorem C2_counterexample :
    pyLowerStrip "opt-out" = "opt-out" ∧
    (extract_channel_and_phone "whatsapp:+14155550001").2 =
      some "+14155550001" ∧
    (findUser
      (inbound_webhook ⟨some "SM1", some "whatsapp:+14155550001", some "opt-out"⟩
        ⟨[⟨"+14155550001", [], ConsentState.OPT_IN⟩], [], [], [], [], []⟩).1
      "+14155550001").map User.consent_state = some ConsentState.OPT_IN ∧
    ConsentState.OPT_IN ≠ ConsentState.STOP := by
  refine ⟨?_, ?_, ?_, ?_⟩ <;> decide

/-- C2 amended: for the six keywords the handler does recognise
(`stop`, `stopall`, `unsubscribe`, `cancel`, `end`, `quit` — not
`opt-out`), and a `From` that normalizes, the acknowledgement is 200
and the user identified by the normalized phone ends with
`consent_state = STOP`, created on the fly when absent. -/
theorem C2_inbound_stop_amended (raw : InboundForm) (db : DBState)
    (ch : Option String) (phone : String)
    (hex : extract_channel_and_phone (raw.From.getD "") = (ch, some phone))
    (hbody : stop_words.contains (pyLowerStrip (raw.Body.getD "")) = true) :
    (inbound_webhook raw db).2.status_code = 200 ∧
    (findUser (inbound_webhook raw db).1 phone).map User.consent_state =
      some ConsentState.STOP := by
  cases hf : findUser db phone with
  | some u =>
    have husers : (inbound_webhook raw db).1.users =
        db.users.map fun x =>
          if x.phone_number = phone then
            { x with consent_state := ConsentState.STOP }
          else x := by
      simp only [inbound_webhook, hex, hbody, hf, if_true]
    have hresp : (inbound_webhook raw db).2.status_code = 200 := by
      simp only [inbound_webhook, hex, hbody, hf, if_true]
    refine ⟨hresp, ?_⟩
    have := find?_update db.users (fun x => x.phone_number = phone)
      (fun x => { x with consent_state := ConsentState.STOP })
      (fun x hx => hx) u hf
    rw [findUser, husers, this]
    rfl
  | none =>
    have husers : (inbound_webhook raw db).1.users =
        db.users ++ [⟨phone, [], ConsentState.STOP⟩] := by
      simp only [inbound_webhook, hex, hbody, hf, if_true]
    have hresp : (inbound_webhook raw db).2.status_code = 200 := by
      simp only [inbound_webhook, hex, hbody, hf, if_true]
    refine ⟨hresp, ?_⟩
    rw [findUser, husers,
      find?_append_none db.users [⟨phone, [], ConsentState.STOP⟩] _ hf]
    simp [List.find?]

/-- C2 amended, instantiated: `STOP` (upper-case, padded) from a fresh
phone creates a STOP user and acknowledges 200. -/
theorem C2_inbound_stop_amended_witness :
    (inbound_webhook ⟨none, some "+14155550002", some " STOP "⟩
      ⟨[], [], [], [], [], []⟩).2.status_code = 200 ∧
    (findUser (inbound_webhook ⟨none, some "+14155550002", some " STOP "⟩
      ⟨[], [], [], [], [], []⟩).1 "+14155550002").map User.consent_state =
      some ConsentState.STOP :=
  C2_inbound_stop_amended ⟨none, some "+14155550002", some " STOP "⟩
    ⟨[], [], [], [], [], []⟩ (some "sms") "+14155550002"
    (by decide) (by decide)

/-! ## Status webhook (`app/main.py::status_webhook`) -/

/-- The form fields of a delivery-status callback. -/
structure StatusForm where
  MessageSid : Option String
  MessageStatus : Option String
  ErrorCode : Option String
deriving DecidableEq, Repr

/-- Python `int(s)`: strip whitespace, optional sign, decimal digits;
`none` is the `ValueError`. -/
def parsePyInt (s : String) : Option Int :=
  match trimChars s.data with
  | '-' :: ds => if allDigits ds then some (-(digitsToNat ds : Int)) else none
  | '+' :: ds => if allDigits ds then some ((digitsToNat ds : Int)) else none
  | ds => if allDigits ds then some ((digitsToNat ds : Int)) else none

/-- `int(raw_data.get("ErrorCode")) if raw_data.get("ErrorCode") else
None`: absent or empty is `None`; a non-numeric value raises (the
`.error` case). -/
def parse_error_code (raw : StatusForm) : Except Unit (Option Int) :=
  match raw.ErrorCode with
  | none => .ok none
  | some s =>
    if s = "" then .ok none
    else
      match parsePyInt s with
      | some n => .ok (some n)
      | none => .error ()

/-- `status_webhook`: build the `DeliveryReceipt` (parsing `ErrorCode`),
commit, and answer `{"status": "received"}, 200`; any exception —
the `int()` failure or the commit itself (`persistOk = false`) — rolls
back and answers `{"status": "error"}, 500`. -/
def status_webhook (raw : StatusForm) (persistOk : Bool) (db : DBState) :
    DBState × WebhookResponse :=
  match parse_error_code raw with
  | .error _ => (db, ⟨500, "error"⟩)
  | .ok ecv =>
    if persistOk then
      ({db with delivery_receipts :=
          db.delivery_receipts ++ [⟨raw.MessageSid, raw.MessageStatus, ecv⟩]},
        ⟨200, "received"⟩)
    else (db, ⟨500, "error"⟩)

/-! ## Claim C9: status webhook acknowledgement -/

/-- C9 counterexample: when persisting the receipt fails the endpoint
answers 500, not the claimed unconditional 200 (the rollback and log do
happen, but the acknowledgement is an error). -/
theorem C9_counterexample :
    (status_webhook ⟨some "SM1", some "delivered", none⟩ false
      ⟨[], [], [], [], [], []⟩).2.status_code = 500 ∧
    (status_webhook ⟨some "SM1", some "delivered", none⟩ false
      ⟨[], [], [], [], [], []⟩).1 = ⟨[], [], [], [], [], []⟩ ∧
    (500 : Nat) ≠ 200 := by
  refine ⟨?_, ?_, ?_⟩ <;> decide

/-- C9 amended: with a parsable (or absent) `ErrorCode`, a successful
commit appends the receipt and answers 200; a failed commit leaves the
store unchanged and answers 500 (after rollback and an error log) —
the endpoint does *not* always return 200. -/
theorem C9_status_webhook_amended (raw : StatusForm) (db : DBState)
    (ecv : Option Int) (hec : parse_error_code raw = .ok ecv) :
    status_webhook raw true db =
      ({db with delivery_receipts :=
          db.delivery_receipts ++ [⟨raw.MessageSid, raw.MessageStatus, ecv⟩]},
        ⟨200, "received"⟩) ∧
    status_webhook raw false db = (db, ⟨500, "error"⟩) := by
  constructor <;> simp [status_webhook, hec]

/-- C9 amended, instantiated at a receipt with `ErrorCode = 30003`. -/
theorem C9_status_webhook_amended_witness :
    status_webhook ⟨some "SM9", some "failed", some "30003"⟩ true
        ⟨[], [], [], [], [], []⟩ =
      (⟨[], [], [], [], [], [⟨some "SM9", some "failed", some 30003⟩]⟩,
        ⟨200, "received"⟩) ∧
    status_webhook ⟨some "SM9", some "failed", some "30003"⟩ false
        ⟨[], [], [], [], [], []⟩ =
      (⟨[], [], [], [], [], []⟩, ⟨500, "error"⟩) :=
  C9_status_webhook_amended ⟨some "SM9", some "failed", some "30003"⟩
    ⟨[], [], [], [], [], []⟩ (some 30003) (by rfl)

/-! ## Reconciler (`app/tasks/webhook_processor.py`) -/

/-- `map_twilio_status_to_message_status(twilio_status)`: lower-case
lookup in the seven-entry table, defaulting to FAILED. -/
def map_twilio_status_to_message_status (twilio_status : String) :
    MessageStatus :=
  let l := pyLower twilio_status
  if l = "queued" then .QUEUED
  else if l = "sending" then .SENDING
  else if l = "sent" then .SENT
  else if l = "delivered" then .DELIVERED
  else if l = "read" then .READ
  else if l = "failed" then .FAILED
  else if l = "undelivered" then .UNDELIVERED
  else .FAILED

/-- The keys of the reconciler's status table. -/
def twilio_status_strings : List String :=
  ["queued", "sending", "sent", "delivered", "read", "failed", "undelivered"]

/-- Position of a status along the spec's delivery graph
QUEUED → SENDING → SENT → DELIVERED → READ, with the two failure
states treated as terminal. -/
def statusRank : MessageStatus → Nat
  | .QUEUED => 0
  | .SENDING => 1
  | .SENT => 2
  | .DELIVERED => 3
  | .READ => 4
  | .FAILED => 5
  | .UNDELIVERED => 5

/-- `process_status_callback` acting on the receipt's raw payload:
find the message by `provider_sid`; overwrite its status with the
mapped receipt status (no monotonicity guard), back-fill `sent_at` /
`delivered_at` on entry into SENT / DELIVERED, and store a parsed
`ErrorCode` when present.  A missing `MessageStatus` (`.lower()` on
`None`) or an unparsable `ErrorCode` raises, and the rollback leaves
the store unchanged; the receipt-row linkage updates touch only the
receipt row and are not modelled. -/
def process_status_callback (payload : StatusForm) (now : Nat)
    (db : DBState) : DBState :=
  match payload.MessageStatus with
  | none => db
  | some status_str =>
    match findMessageBySid db payload.MessageSid with
    | none => db
    | some _ =>
      match parse_error_code payload with
      | .error _ => db
      | .ok ecv =>
        let new_status := map_twilio_status_to_message_status status_str
        {db with messages := db.messages.map fun x =>
          if x.provider_sid = payload.MessageSid then
            { x with
                status := new_status,
                sent_at :=
                  if new_status = .SENT ∧ x.status ≠ .SENT then some now
                  else x.sent_at,
                delivered_at :=
                  if new_status = .DELIVERED ∧ x.status ≠ .DELIVERED then
                    some now
                  else x.delivered_at,
                error_code :=
                  match ecv with
                  | some n => some n
                  | none => x.error_code }
          else x}

/-- After a processed receipt, the matched message's stored status is
exactly the mapped receipt status, whatever it was before. -/
theorem process_sets_mapped (payload : StatusForm) (now : Nat)
    (db : DBState) (s : String) (m : Message)
    (hs : payload.MessageStatus = some s)
    (hec : payload.ErrorCode = none)
    (hm : findMessageBySid db payload.MessageSid = some m) :
    (findMessageBySid (process_status_callback payload now db)
        payload.MessageSid).map Message.status =
      some (map_twilio_status_to_message_status s) := by
  have hecok : parse_error_code payload = .ok none := by
    simp [parse_error_code, hec]
  have hmsgs : (process_status_callback payload now db).messages =
      db.messages.map fun x =>
        if x.provider_sid = payload.MessageSid then
          { x with
              status := map_twilio_status_to_message_status s,
              sent_at :=
                if map_twilio_status_to_message_status s = .SENT ∧
                    x.status ≠ .SENT then some now
                else x.sent_at,
              delivered_at :=
                if map_twilio_status_to_message_status s = .DELIVERED ∧
                    x.status ≠ .DELIVERED then some now
                else x.delivered_at,
              error_code := x.error_code }
        else x := by
    simp only [process_status_callback, hs, hm, hecok]
  have := find?_update db.messages
    (fun x => x.provider_sid = payload.MessageSid)
    (fun x =>
      { x with
          status := map_twilio_status_to_message_status s,
          sent_at :=
            if map_twilio_status_to_message_status s = .SENT ∧
                x.status ≠ .SENT then some now
            else x.sent_at,
          delivered_at :=
            if map_twilio_status_to_message_status s = .DELIVERED ∧
                x.status ≠ .DELIVERED then some now
            else x.delivered_at,
          error_code := x.error_code })
    (fun x hx => hx) m hm
  rw [findMessageBySid, hmsgs, this]
  rfl

/-! ## Claim C3: reconciler monotonicity -/

/-- C3 counterexample: a message already DELIVERED receives a late
`queued` receipt; the reconciler overwrites the status to QUEUED — a
regression along the graph (rank 0 < rank 3), not an advance and not a
no-op. -/
theorem C3_counterexample :
    (findMessageBySid
      (process_status_callback ⟨some "SM1", some "queued", none⟩ 100
        ⟨[], [], [],
          [⟨"+14155550001", 1, 1, "hi", MessageStatus.DELIVERED, "whatsapp",
            some "SM1", none, some 10, some 20⟩], [], []⟩)
      (some "SM1")).map Message.status = some MessageStatus.QUEUED ∧
    statusRank MessageStatus.QUEUED < statusRank MessageStatus.DELIVERED ∧
    MessageStatus.QUEUED ≠ MessageStatus.DELIVERED := by
  refine ⟨?_, ?_, ?_⟩ <;> decide

/-- C3 amended: the reconciler applies the mapped receipt status to the
matched message *unconditionally* — there is no monotonicity guard, so
out-of-order receipts regress the stored status whenever the mapped
status ranks below the old one. -/
theorem C3_reconciler_amended (payload : StatusForm) (now : Nat)
    (db : DBState) (s : String) (m : Message)
    (hs : payload.MessageStatus = some s)
    (hec : payload.ErrorCode = none)
    (hm : findMessageBySid db payload.MessageSid = some m) :
    (findMessageBySid (process_status_callback payload now db)
        payload.MessageSid).map Message.status =
      some (map_twilio_status_to_message_status s) :=
  process_sets_mapped payload now db s m hs hec hm

/-- C3 amended, instantiated: a READ message hit by a `sending` receipt
is knocked back to SENDING. -/
theorem C3_reconciler_amended_witness :
    (findMessageBySid
      (process_status_callback ⟨some "SM2", some "sending", none⟩ 7
        ⟨[], [], [],
          [⟨"+14155550002", 2, 1, "yo", MessageStatus.READ, "whatsapp",
            some "SM2", none, some 1, some 2⟩], [], []⟩)
      (some "SM2")).map Message.status =
      some (map_twilio_status_to_message_status "sending") :=
  C3_reconciler_amended ⟨some "SM2", some "sending", none⟩ 7
    ⟨[], [], [],
      [⟨"+14155550002", 2, 1, "yo", MessageStatus.READ, "whatsapp",
        some "SM2", none, some 1, some 2⟩], [], []⟩
    "sending"
    ⟨"+14155550002", 2, 1, "yo", MessageStatus.READ, "whatsapp",
      some "SM2", none, some 1, some 2⟩
    (by rfl) (by rfl) (by rfl)

/-! ## Claim C10: status-string interpretation -/

/-- C10: the receipt status is interpreted case-insensitively (equal
lower-casings map equally), any string outside the seven-entry table
maps to FAILED, and the FAILED value is written onto the matched
message rather than the receipt being ignored. -/
theorem C10_unrecognized_status (s t : String) (payload : StatusForm)
    (now : Nat) (db : DBState) (m : Message)
    (hlow : pyLower s = pyLower t)
    (hout : twilio_status_strings.contains (pyLower s) = false)
    (hs : payload.MessageStatus = some s)
    (hec : payload.ErrorCode = none)
    (hm : findMessageBySid db payload.MessageSid = some m) :
    map_twilio_status_to_message_status s =
      map_twilio_status_to_message_status t ∧
    map_twilio_status_to_message_status s = MessageStatus.FAILED ∧
    (findMessageBySid (process_status_callback payload now db)
        payload.MessageSid).map Message.status =
      some MessageStatus.FAILED := by
  have hfail : map_twilio_status_to_message_status s = MessageStatus.FAILED := by
    have hne : pyLower s ≠ "queued" ∧ pyLower s ≠ "sending" ∧
        pyLower s ≠ "sent" ∧ pyLower s ≠ "delivered" ∧ pyLower s ≠ "read" ∧
        pyLower s ≠ "failed" ∧ pyLower s ≠ "undelivered" := by
      simpa [twilio_status_strings] using hout
    obtain ⟨h1, h2, h3, h4, h5, h6, h7⟩ := hne
    simp [map_twilio_status_to_message_status, h1, h2, h3, h4, h5, h6, h7]
  refine ⟨?_, hfail, ?_⟩
  · simp only [map_twilio_status_to_message_status, hlow]
  · rw [process_sets_mapped payload now db s m hs hec hm, hfail]

/-- C10, instantiated: the unrecognized status `Rejected` (and its
lower-casing) both map to FAILED and flip the matched SENT message to
FAILED. -/
theorem C10_unrecognized_status_witness :
    map_twilio_status_to_message_status "Rejected" =
      map_twilio_status_to_message_status "rejected" ∧
    map_twilio_status_to_message_status "Rejected" = MessageStatus.FAILED ∧
    (findMessageBySid
      (process_status_callback ⟨some "SM3", some "Rejected", none⟩ 9
        ⟨[], [], [],
          [⟨"+14155550003", 3, 1, "hey", MessageStatus.SENT, "whatsapp",
            some "SM3", none, some 1, none⟩], [], []⟩)
      (some "SM3")).map Message.status = some MessageStatus.FAILED :=
  C10_unrecognized_status "Rejected" "rejected"
    ⟨some "SM3", some "Rejected", none⟩ 9
    ⟨[], [], [],
      [⟨"+14155550003", 3, 1, "hey", MessageStatus.SENT, "whatsapp",
        some "SM3", none, some 1, none⟩], [], []⟩
    ⟨"+14155550003", 3, 1, "hey", MessageStatus.SENT, "whatsapp",
      some "SM3", none, some 1, none⟩
    (by rfl) (by rfl) (by rfl) (by rfl) (by rfl)

/-! ## Campaign orchestration (`app/runner/tasks.py`)

`run_campaign_task` with its collaborators passed explicitly: the
wall-clock readings, the Redis key state, the Twilio client
(`send_message` never raises — it catches its own exceptions), and a
fault oracle standing for an unhandled per-recipient exception (the
loop's `except` block); `retriesRemaining` is
`self.request.retries < self.max_retries`.  The Celery `self.retry`
raised on a rate-limit denial is itself caught by the per-recipient
`except` handler, so both denial branches continue with the next
recipient. -/

/-- `twilio_service.send_message` result dict. -/
structure SendResult where
  success : Bool
  message_sid : Option String
  error_code : Option Int
  error_message : Option String
deriving DecidableEq, Repr

/-- The ambient collaborators of one task execution. -/
structure OrchestratorEnv where
  clock : Nat
  now : Nat
  storeOk : Bool
  rateKey : Option (Nat × Nat)
  send : String → SendResult
  faults : String → Bool
  retriesRemaining : Bool

/-- `ConsentState(value)`; `none` is the `ValueError`. -/
def parseConsent (v : String) : Option ConsentState :=
  if v = "OPT_IN" then some .OPT_IN
  else if v = "OPT_OUT" then some .OPT_OUT
  else if v = "STOP" then some .STOP
  else none

/-- Literal-prefix test. -/
def startsWithChars : List Char → List Char → Bool
  | [], _ => true
  | _ :: _, [] => false
  | p :: ps, c :: cs => p = c && startsWithChars ps cs

/-- Substring test over character lists. -/
def isSubstring (needle : List Char) : List Char → Bool
  | [] => needle.isEmpty
  | c :: cs => startsWithChars needle (c :: cs) || isSubstring needle cs

/-- `ilike '%v%'`: case-insensitive containment. -/
def containsCI (hay needle : String) : Bool :=
  isSubstring (needle.data.map Char.toLower) (hay.data.map Char.toLower)

/-- `User.attributes[a].astext == str(v)` (SQL NULL compares false). -/
def astextEquals (u : User) (a v : String) : Bool :=
  lookupAttr u.attributes a = some v

/-- `User.attributes[a].astext.ilike('%v%')`. -/
def astextContains (u : User) (a v : String) : Bool :=
  match lookupAttr u.attributes a with
  | some sval => containsCI sval v
  | none => false

/-- `resolve_campaign_recipients(campaign)`: no segment selects the
opted-in users; a leaf filters on `consent_state` (parsing the value —
a bad value raises) or on an attribute with `equals`/`contains` (any
other operator applies no filter); a composite combines flat
attribute-leaf filters with AND/OR (unknown logic: no filter). -/
def resolve_campaign_recipients (c : Campaign) (users : List User) :
    Except Unit (List User) :=
  match c.segment with
  | none => .ok (users.filter fun u => u.consent_state = ConsentState.OPT_IN)
  | some (.leaf a op v) =>
    if a = "consent_state" then
      if op = "equals" then
        match parseConsent v with
        | some cv => .ok (users.filter fun u => u.consent_state = cv)
        | none => .error ()
      else .ok users
    else
      if op = "equals" then .ok (users.filter fun u => astextEquals u a v)
      else if op = "contains" then .ok (users.filter fun u => astextContains u a v)
      else .ok users
  | some (.composite logic conds) =>
    let filters := conds.filterMap fun cond =>
      if cond.2.1 = "equals" then
        some (fun u => astextEquals u cond.1 cond.2.2)
      else if cond.2.1 = "contains" then
        some (fun u => astextContains u cond.1 cond.2.2)
      else none
    if logic = "AND" then .ok (users.filter fun u => filters.all (· u))
    else if logic = "OR" then .ok (users.filter fun u => filters.any (· u))
    else .ok users

/-- The `skipped_reasons` counters of the task results dict. -/
structure SkippedReasons where
  opt_out : Nat
  quiet_hours : Nat
  rate_limit : Nat
  invalid_phone : Nat
  missing_template_data : Nat
deriving DecidableEq, Repr

/-- The task results dict (errors kept as the offending phones). -/
structure TaskResults where
  status : String
  recipients_processed : Nat
  messages_sent : Nat
  messages_failed : Nat
  skipped : SkippedReasons
  errors : List String
deriving DecidableEq, Repr

/-- Fresh results dict. -/
def initResults : TaskResults :=
  ⟨"processing", 0, 0, 0, ⟨0, 0, 0, 0, 0⟩, []⟩

/-- State threaded through the recipient loop: committed messages, the
limiter key, the results dict. -/
structure LoopState where
  messages : List Message
  rateKey : Option (Nat × Nat)
  results : TaskResults
deriving DecidableEq, Repr

/-- One iteration of the compliance pipeline for one recipient:
consent gate, quiet-hours gate, rate-limit gate (a denial records the
skip — and, when a Celery retry would be raised and caught, an error —
and continues), render, materialize QUEUED, send, commit as SENT or
FAILED.  A fault is an unhandled exception in the recipient body: the
`except` handler rolls back the uncommitted message, records the
error, and continues. -/
def process_recipient (env : OrchestratorEnv) (c : Campaign) (t : Template)
    (u : User) (s : LoopState) : LoopState :=
  let r0 := {s.results with
    recipients_processed := s.results.recipients_processed + 1}
  if u.consent_state ≠ ConsentState.OPT_IN then
    {s with results := {r0 with skipped :=
      {r0.skipped with opt_out := r0.skipped.opt_out + 1}}}
  else if is_in_quiet_hours c.quiet_hours_start c.quiet_hours_end env.clock
      u.attributes then
    {s with results := {r0 with skipped :=
      {r0.skipped with quiet_hours := r0.skipped.quiet_hours + 1}}}
  else
    let step := check_and_increment c.rate_limit_per_second env.storeOk
      s.rateKey
    if step.1.allowed = false then
      let r1 := {r0 with skipped :=
        {r0.skipped with rate_limit := r0.skipped.rate_limit + 1}}
      let r2 :=
        if env.retriesRemaining then
          {r1 with errors := r1.errors ++ [u.phone_number]}
        else r1
      {s with rateKey := step.2, results := r2}
    else
      match render_message_template t.content u.attributes with
      | .error _ =>
        {s with rateKey := step.2, results :=
          {r0 with
            skipped := {r0.skipped with missing_template_data :=
              r0.skipped.missing_template_data + 1},
            errors := r0.errors ++ [u.phone_number]}}
      | .ok rendered =>
        if env.faults u.phone_number then
          {s with rateKey := step.2, results :=
            {r0 with errors := r0.errors ++ [u.phone_number]}}
        else
          let tw := env.send u.phone_number
          if tw.success then
            { messages := s.messages ++
                [⟨u.phone_number, c.id, t.id, rendered, .SENT, t.channel,
                  tw.message_sid, none, some env.now, none⟩],
              rateKey := step.2,
              results := {r0 with messages_sent := r0.messages_sent + 1} }
          else
            { messages := s.messages ++
                [⟨u.phone_number, c.id, t.id, rendered, .FAILED, t.channel,
                  none, tw.error_code, none, none⟩],
              rateKey := step.2,
              results := {r0 with
                messages_failed := r0.messages_failed + 1,
                errors := r0.errors ++ [u.phone_number]} }

/-- Conditional status write on the campaign row. -/
def set_campaign_status (db : DBState) (cid : Nat) (st : String) : DBState :=
  {db with campaigns := db.campaigns.map fun c =>
    if c.id = cid then {c with status := st} else c}

/-- `run_campaign_task(campaign_id)`: load and validate the campaign
(`RUNNING` required) and template, resolve recipients, run the
pipeline per recipient, then mark the campaign COMPLETED.  On any
fatal error the handler resets the campaign — when its row exists — to
READY ("Reset to allow retry") and reports failure. -/
def run_campaign_task (env : OrchestratorEnv) (campaign_id : Nat)
    (db : DBState) : DBState × TaskResults :=
  match findCampaign db campaign_id with
  | none => (db, {initResults with status := "failed"})
  | some c =>
    if c.status ≠ "RUNNING" then
      (set_campaign_status db campaign_id "READY",
        {initResults with status := "failed"})
    else
      match findTemplate db c.template_id with
      | none =>
        (set_campaign_status db campaign_id "READY",
          {initResults with status := "failed"})
      | some t =>
        match resolve_campaign_recipients c db.users with
        | .error _ =>
          (set_campaign_status db campaign_id "READY",
            {initResults with status := "failed"})
        | .ok recipients =>
          let final := recipients.foldl
            (fun s u => process_recipient env c t u s)
            ⟨db.messages, env.rateKey, initResults⟩
          (set_campaign_status {db with messages := final.messages}
              campaign_id "COMPLETED",
            {final.results with status := "completed"})

/-- `check_scheduled_campaigns`: promote each READY campaign whose
`schedule_time` is unset or elapsed to RUNNING and execute its queued
task. -/
def check_scheduled_campaigns (env : OrchestratorEnv) (now : Nat)
    (db : DBState) : DBState :=
  let ready := (db.campaigns.filter fun c =>
    c.status = "READY" &&
      (match c.schedule_time with
        | none => true
        | some ts => decide (ts ≤ now))).map Campaign.id
  ready.foldl
    (fun d cid =>
      (run_campaign_task env cid (set_campaign_status d cid "RUNNING")).1)
    db

/-- Number of Message rows for one `(campaign, recipient)` pair. -/
def countMessages (db : DBState) (cid : Nat) (phone : String) : Nat :=
  (db.messages.filter fun m =>
    m.campaign_id = cid ∧ m.phone_number = phone).length

/-- `check_and_increment` with a reachable store, written as one
conditional on the stored count. -/
theorem check_and_increment_eq (L : Nat) (k : Option (Nat × Nat)) :
    check_and_increment L true k =
      if L ≤ keyCount k then (⟨false, keyCount k, 0⟩, k)
      else (⟨true, keyCount k + 1, L - (keyCount k + 1)⟩,
        some (keyCount k + 1, 2)) := by
  cases k <;> rfl

/-- An environment for the concrete traces: reachable store, fresh
limiter key, a Twilio client that always succeeds with sid `SMX`, no
injected faults. -/
def c1Env : OrchestratorEnv :=
  ⟨0, 100, true, none, fun _ => ⟨true, some "SMX", none, none⟩,
    fun _ => false, true⟩

/-- One opted-in user, one RUNNING campaign over template 1, no
segment, no quiet hours, no schedule. -/
def c1Db : DBState :=
  ⟨[⟨"+14155550001", [], ConsentState.OPT_IN⟩],
    [⟨1, 1, none, "RUNNING", 10, none, none, none⟩],
    [⟨1, "hello", "whatsapp"⟩], [], [], []⟩

/-- The state after: run the RUNNING campaign (one Message), run the
task again (fatal — campaign no longer RUNNING — so the handler resets
it to READY), then let the scheduler sweep re-promote and re-execute
it. -/
def c1FinalDb : DBState :=
  check_scheduled_campaigns c1Env 50
    ((run_campaign_task c1Env 1 ((run_campaign_task c1Env 1 c1Db).1)).1)

/-! ## Claim C1: at most one Message per (campaign, recipient) -/

/-- C1 counterexample: after the first execution the recipient has one
Message; a re-run of the task resets the campaign to READY, the next
scheduler sweep re-executes it, and the recipient ends with **two**
Message rows for the same campaign — nothing deduplicates per
`(campaign, recipient)`. -/
theorem C1_counterexample :
    countMessages c1FinalDb 1 "+14155550001" = 2 ∧
    ¬ countMessages c1FinalDb 1 "+14155550001" ≤ 1 := by
  constructor <;> decide

/-- C1 amended: each execution of `run_campaign_task` on a RUNNING
campaign appends a **fresh** Message row for every recipient that
passes the gates, regardless of the Message rows the recipient already
has (there is no `created=false` dedup path, no unique index on
`(campaign_id, phone)`); a direct second run is stopped only by the
RUNNING-status check — which resets the campaign to READY, from where
the scheduler re-executes it and duplicates every recipient's
Message. -/
theorem C1_no_dedup_amended (env : OrchestratorEnv) (db : DBState)
    (cid : Nat) (c : Campaign) (t : Template) (u : User) (rendered : String)
    (hc : findCampaign db cid = some c)
    (hst : c.status = "RUNNING")
    (ht : findTemplate db c.template_id = some t)
    (hseg : c.segment = none)
    (hu : db.users = [u])
    (hcons : u.consent_state = ConsentState.OPT_IN)
    (hq : is_in_quiet_hours c.quiet_hours_start c.quiet_hours_end env.clock
      u.attributes = false)
    (hstore : env.storeOk = true)
    (hrate : keyCount env.rateKey < c.rate_limit_per_second)
    (hrender : render_message_template t.content u.attributes = .ok rendered)
    (hfault : env.faults u.phone_number = false) :
    countMessages (run_campaign_task env cid db).1 cid u.phone_number =
      countMessages db cid u.phone_number + 1 := by
  have hcid : c.id = cid := by
    unfold findCampaign at hc
    have := List.find?_some hc
    simpa using this
  have hchk : check_and_increment c.rate_limit_per_second env.storeOk
      env.rateKey =
      (⟨true, keyCount env.rateKey + 1,
        c.rate_limit_per_second - (keyCount env.rateKey + 1)⟩,
        some (keyCount env.rateKey + 1, 2)) := by
    rw [hstore, check_and_increment_eq, if_neg (Nat.not_le_of_lt hrate)]
  obtain ⟨m, hmsgs, hmc, hmp⟩ : ∃ m,
      (process_recipient env c t u
        ⟨db.messages, env.rateKey, initResults⟩).messages =
        db.messages ++ [m] ∧
      m.campaign_id = c.id ∧ m.phone_number = u.phone_number := by
    by_cases hsend : (env.send u.phone_number).success
    · refine ⟨⟨u.phone_number, c.id, t.id, rendered, .SENT, t.channel,
        (env.send u.phone_number).message_sid, none, some env.now, none⟩,
        ?_, rfl, rfl⟩
      simp only [process_recipient, hcons, hq, hchk, hrender, hfault,
        hsend, ne_eq, not_true_eq_false, if_false, Bool.false_eq_true,
        ite_false, ite_true]
      rfl
    · refine ⟨⟨u.phone_number, c.id, t.id, rendered, .FAILED, t.channel,
        none, (env.send u.phone_number).error_code, none, none⟩,
        ?_, rfl, rfl⟩
      simp only [process_recipient, hcons, hq, hchk, hrender, hfault,
        hsend, ne_eq, not_true_eq_false, if_false, Bool.false_eq_true,
        ite_false, ite_true]
      rfl
  have hne : ¬ c.status ≠ "RUNNING" := by simp [hst]
  have hresolve : resolve_campaign_recipients c db.users = .ok [u] := by
    simp [resolve_campaign_recipients, hseg, hu, List.filter, hcons]
  have hrun : (run_campaign_task env cid db).1 =
      set_campaign_status
        {db with messages :=
          (process_recipient env c t u
            ⟨db.messages, env.rateKey, initResults⟩).messages}
        cid "COMPLETED" := by
    simp only [run_campaign_task, hc, hne, ht, hresolve, List.foldl,
      if_false, ite_false]
  rw [hrun]
  show countMessages
    (set_campaign_status
      {db with messages := _} cid "COMPLETED") cid u.phone_number = _
  rw [hmsgs]
  simp [countMessages, set_campaign_status, List.filter_append, hmc, hcid,
    hmp, List.filter]

/-- C1 amended, instantiated on `c1Db`: the single opted-in recipient
of the RUNNING campaign gains exactly one more Message per
execution. -/
theorem C1_no_dedup_amended_witness :
    countMessages (run_campaign_task c1Env 1 c1Db).1 1 "+14155550001" =
      countMessages c1Db 1 "+14155550001" + 1 :=
  C1_no_dedup_amended c1Env c1Db 1
    ⟨1, 1, none, "RUNNING", 10, none, none, none⟩
    ⟨1, "hello", "whatsapp"⟩
    ⟨"+14155550001", [], ConsentState.OPT_IN⟩
    "hello"
    (by decide) (by decide) (by decide) (by decide) (by decide) (by decide)
    (by decide) (by decide) (by decide) (by rfl) (by decide)

/-! ## Claim C8: fatal-error handling -/

/-- A RUNNING campaign whose template (id 99) does not exist. -/
def c8Db : DBState :=
  ⟨[], [⟨1, 99, none, "RUNNING", 10, none, none, none⟩], [], [], [], []⟩

/-- C8 counterexample: on the fatal error "template missing" the
campaign is reset to READY ("Reset to allow retry"), not transitioned
to FAILED as the claim states. -/
theorem C8_counterexample :
    (run_campaign_task c1Env 1 c8Db).1.campaigns.map Campaign.status =
      ["READY"] ∧
    (run_campaign_task c1Env 1 c8Db).2.status = "failed" ∧
    ("READY" : String) ≠ "FAILED" := by
  refine ⟨?_, ?_, ?_⟩ <;> decide

/-- C8 amended: on a fatal error (here: template missing) the handler
resets the campaign row to READY — never FAILED; and when campaign,
template and recipient resolution are all in order, the run always
ends with the campaign COMPLETED, regardless of per-recipient faults,
send failures, or limiter denials — the per-recipient loop never
aborts the campaign. -/
theorem C8_failure_handling_amended (env : OrchestratorEnv) (db : DBState)
    (cid : Nat) (c : Campaign)
    (hc : findCampaign db cid = some c) (hst : c.status = "RUNNING") :
    (findTemplate db c.template_id = none →
      findCampaign (run_campaign_task env cid db).1 cid =
        some {c with status := "READY"}) ∧
    (∀ t rcpts, findTemplate db c.template_id = some t →
      resolve_campaign_recipients c db.users = .ok rcpts →
      findCampaign (run_campaign_task env cid db).1 cid =
        some {c with status := "COMPLETED"} ∧
      (run_campaign_task env cid db).2.status = "completed") := by
  have hne : ¬ c.status ≠ "RUNNING" := by simp [hst]
  have hfind : db.campaigns.find? (fun x => x.id = cid) = some c := by
    unfold findCampaign at hc
    exact hc
  constructor
  · intro htm
    have hrun : run_campaign_task env cid db =
        (set_campaign_status db cid "READY",
          {initResults with status := "failed"}) := by
      simp only [run_campaign_task, hc, hne, htm, ite_false, if_false]
    rw [hrun]
    show findCampaign (set_campaign_status db cid "READY") cid = _
    unfold findCampaign set_campaign_status
    exact find?_update db.campaigns (fun x => x.id = cid)
      (fun x => {x with status := "READY"}) (fun x hx => hx) c hfind
  · intro t rcpts htm hres
    have hrun : run_campaign_task env cid db =
        (set_campaign_status
          {db with messages :=
            (rcpts.foldl (fun s u => process_recipient env c t u s)
              ⟨db.messages, env.rateKey, initResults⟩).messages}
          cid "COMPLETED",
          {(rcpts.foldl (fun s u => process_recipient env c t u s)
              ⟨db.messages, env.rateKey, initResults⟩).results with
            status := "completed"}) := by
      simp only [run_campaign_task, hc, hne, htm, hres, ite_false, if_false]
    rw [hrun]
    constructor
    · show findCampaign (set_campaign_status _ cid "COMPLETED") cid = _
      unfold findCampaign set_campaign_status
      exact find?_update db.campaigns (fun x => x.id = cid)
        (fun x => {x with status := "COMPLETED"}) (fun x hx => hx) c hfind
    · rfl

/-- C8 amended, instantiated on `c8Db`: the missing template resets
the campaign to READY. -/
theorem C8_failure_handling_amended_witness :
    findCampaign (run_campaign_task c1Env 1 c8Db).1 1 =
      some ⟨1, 99, none, "READY", 10, none, none, none⟩ :=
  (C8_failure_handling_amended c1Env c8Db 1
    ⟨1, 99, none, "RUNNING", 10, none, none, none⟩
    (by decide) (by rfl)).1 (by decide)

end EventStream

